import Mathlib

/-!
Verification of the Hemut Voice AI dispatch backend.

The development shallowly embeds the four Python modules of the repository:

* `models.py`    — record shapes (Driver, Load, DriverStatus, CallLog);
* `database.py`  — record-store access over an explicit in-memory table state
  (`DB`); the hosted store client is modelled by list filtering, and the
  documented behaviour of the client method chain `.eq(...).single().execute()`
  (raise when the filter does not yield exactly one row) is modelled by
  `Except`;
* `vapi_handler.py` — phone-number normalisation and the outbound-call
  builders; the external voice provider is modelled by a `transport_ok` flag,
  and the submissions made to it are returned explicitly so that theorems can
  talk about which calls were placed;
* `main.py`      — the HTTP handlers `make_call`, `assign_load` and
  `vapi_webhook`, with Python exceptions modelled by `Except` and the
  possibility of store-write failures modelled by a `Faults` record saying
  which table writes fail.

Python truthiness (None and the empty string are falsy) is modelled by
`truthyStr`; Python string slicing and `startswith` are modelled at the
code-point (character list) level, matching Python string semantics.
-/

namespace Hemut

/-- Driver record (models.py `Driver`, drivers table). -/
structure Driver where
  id : String
  name : String
  phone : String
  current_location : Option String
  is_loaded : Bool
  truck_capacity : Nat
deriving Repr, DecidableEq

/-- Load record (models.py `Load` plus the assignment-outcome columns written
by database.py `update_load_assignment_status`). -/
structure Load where
  id : String
  load_number : String
  pickup_location : String
  delivery_location : String
  weight : Nat
  status : String
  assigned_driver_id : Option String
  driver_response : Option String
  response_reason : Option String
  estimated_pickup : Option String
  driver_concerns : Option String
deriving Repr, DecidableEq

/-- Row of the driver_status history table (models.py `DriverStatus`). -/
structure DriverStatusRow where
  driver_id : String
  is_loaded : Bool
  location : String
  notes : Option String
deriving Repr, DecidableEq

/-- Row of the call_logs table (models.py `CallLog` plus the load-assignment
columns written by database.py `create_load_assignment_log`). -/
structure CallLogRow where
  driver_id : String
  call_sid : Option String
  call_type : Option String
  load_id : Option String
  is_loaded : Option Bool
  reason_not_loaded : Option String
  assignment_status : Option String
  driver_concerns : Option String
  current_location : Option String
deriving Repr, DecidableEq

/-- The record-store state: the four tables the system reads and writes. -/
structure DB where
  drivers : List Driver
  loads : List Load
  driver_status : List DriverStatusRow
  call_logs : List CallLogRow
deriving Repr, DecidableEq

/-- Python truthiness for an optional string: None and the empty string are
falsy, every other string is truthy. -/
def truthyStr : Option String → Option String
  | some s => if s = "" then none else some s
  | none => none

/-- Python `a or b` over optional strings: `b` when `a` is falsy. -/
def pyOrStr (a b : Option String) : Option String :=
  match truthyStr a with
  | some s => some s
  | none => b

/-- Python `s.startswith(pre)`, at the code-point level. -/
def strStartsWith (s pre : String) : Bool :=
  pre.data.isPrefixOf s.data

/-- Python `s[n:]`, at the code-point level. -/
def strDrop (s : String) (n : Nat) : String :=
  String.mk (s.data.drop n)

/-! ## Phone-number normalisation (vapi_handler.py `format_indian_phone_number`) -/

/-- `''.join(filter(str.isdigit, phone))`: keep only the digit characters. -/
def extractDigits (s : String) : List Char :=
  s.data.filter Char.isDigit

/-- The branch structure of `format_indian_phone_number` after the digit
filter, operating on the retained digit characters.  The final source branch
`f"+{phone}" if not phone.startswith('+') else phone` always takes its first
arm, because the digit filter has removed every `+`. -/
def normDigits (ds : List Char) : String :=
  if ds.take 2 = ['9', '1'] ∧ ds.length = 12 then "+" ++ String.mk ds
  else if ds.length = 10 then "+91" ++ String.mk ds
  else if ds.take 1 = ['0'] ∧ ds.length = 11 then "+91" ++ String.mk (ds.drop 1)
  else "+" ++ String.mk ds

/-- vapi_handler.py `format_indian_phone_number`. -/
def format_indian_phone_number (phone : String) : String :=
  normDigits (extractDigits phone)

theorem extractDigits_all_digits (s : String) :
    ∀ c ∈ extractDigits s, c.isDigit = true := by
  intro c hc
  exact (List.mem_filter.mp hc).2

theorem extract_plus (ds : List Char) (h : ∀ c ∈ ds, c.isDigit = true) :
    extractDigits ("+" ++ String.mk ds) = ds := by
  have hdata : ("+" ++ String.mk ds).data = '+' :: ds := rfl
  unfold extractDigits
  rw [hdata, List.filter_cons_of_neg, List.filter_eq_self.mpr h]
  decide

theorem extract_plus91 (ds : List Char) (h : ∀ c ∈ ds, c.isDigit = true) :
    extractDigits ("+91" ++ String.mk ds) = '9' :: '1' :: ds := by
  have hdata : ("+91" ++ String.mk ds).data = '+' :: '9' :: '1' :: ds := rfl
  unfold extractDigits
  rw [hdata, List.filter_cons_of_neg, List.filter_cons_of_pos,
    List.filter_cons_of_pos, List.filter_eq_self.mpr h]
  · decide
  · decide
  · decide

theorem normDigits_idem (ds : List Char) (h : ∀ c ∈ ds, c.isDigit = true) :
    format_indian_phone_number (normDigits ds) = normDigits ds := by
  unfold format_indian_phone_number
  by_cases h1 : ds.take 2 = ['9', '1'] ∧ ds.length = 12
  · have e1 : extractDigits (normDigits ds) = ds := by
      rw [normDigits, if_pos h1]
      exact extract_plus ds h
    rw [e1]
  · by_cases h2 : ds.length = 10
    · have e1 : extractDigits (normDigits ds) = '9' :: '1' :: ds := by
        rw [normDigits, if_neg h1, if_pos h2]
        exact extract_plus91 ds h
      have hc : List.take 2 ('9' :: '1' :: ds) = ['9', '1'] ∧
          ('9' :: '1' :: ds).length = 12 := ⟨rfl, by simp [h2]⟩
      rw [e1, normDigits, if_pos hc, normDigits, if_neg h1, if_pos h2]
      exact rfl
    · by_cases h3 : ds.take 1 = ['0'] ∧ ds.length = 11
      · have hdropdig : ∀ c ∈ ds.drop 1, c.isDigit = true := by
          intro c hc
          exact h c ((List.drop_sublist 1 ds).subset hc)
        have e1 : extractDigits (normDigits ds) = '9' :: '1' :: ds.drop 1 := by
          rw [normDigits, if_neg h1, if_neg h2, if_pos h3]
          exact extract_plus91 (ds.drop 1) hdropdig
        have hc : List.take 2 ('9' :: '1' :: ds.drop 1) = ['9', '1'] ∧
            ('9' :: '1' :: ds.drop 1).length = 12 := by
          refine ⟨rfl, ?_⟩
          simp [List.length_drop, h3.2]
        rw [e1, normDigits, if_pos hc, normDigits, if_neg h1, if_neg h2, if_pos h3]
        exact rfl
      · have e1 : extractDigits (normDigits ds) = ds := by
          rw [normDigits, if_neg h1, if_neg h2, if_neg h3]
          exact extract_plus ds h
        rw [e1]

theorem format_idempotent (s : String) :
    format_indian_phone_number (format_indian_phone_number s) =
      format_indian_phone_number s :=
  normDigits_idem (extractDigits s) (extractDigits_all_digits s)

/-- C4: for every ten-character all-digit input, normalisation returns the
default country code `+91` prepended exactly once to those ten digits, and
normalisation is idempotent — stated for every input string, which in
particular covers every input already carrying the country code. -/
theorem phone_normalization_spec (s : String) (hlen : s.data.length = 10)
    (hdig : ∀ c ∈ s.data, c.isDigit = true) :
    format_indian_phone_number s = "+91" ++ s ∧
    ∀ t : String, format_indian_phone_number (format_indian_phone_number t) =
      format_indian_phone_number t := by
  refine ⟨?_, fun t => format_idempotent t⟩
  unfold format_indian_phone_number
  have he : extractDigits s = s.data := List.filter_eq_self.mpr hdig
  have hn : ¬(List.take 2 s.data = ['9', '1'] ∧ s.data.length = 12) := by
    rintro ⟨-, h12⟩
    rw [hlen] at h12
    exact absurd h12 (by decide)
  rw [he, normDigits, if_neg hn, if_pos hlen]

/-- Witness for C4 at the concrete domestic number 9876543210. -/
theorem phone_normalization_spec_witness :
    format_indian_phone_number "9876543210" = "+91" ++ "9876543210" :=
  (phone_normalization_spec "9876543210" (by decide) (by decide)).1

/-! ## Record-store access (database.py)

Store-write failures are injected through a `Faults` record: each flag makes
the writes against the corresponding table fail.  Functions whose Python
source can raise return `Except DB DB`, where the error value carries the
table state at the moment the exception was raised (earlier writes of the
same function have already been applied — there is no transaction). -/

/-- Which table writes fail, modelling store/transport errors. -/
structure Faults where
  drivers_update_fails : Bool
  driver_status_insert_fails : Bool
  call_logs_insert_fails : Bool
  loads_update_fails : Bool
deriving Repr, DecidableEq

/-- No store write fails. -/
def noFaults : Faults :=
  { drivers_update_fails := false, driver_status_insert_fails := false,
    call_logs_insert_fails := false, loads_update_fails := false }

/-- database.py `get_driver_by_id`: `.eq("id", driver_id).single().execute()`.
The client raises when the filter does not return exactly one row, and the
function has no exception handling of its own, so the error propagates. -/
def get_driver_by_id (db : DB) (driver_id : String) : Except String Driver :=
  match db.drivers.filter (fun d => d.id = driver_id) with
  | [d] => Except.ok d
  | _ => Except.error "JSON object requested, multiple (or no) rows returned"

/-- database.py `get_load_by_id`: the same `.single()` call, but wrapped in
try/except returning None, so a missing row yields a defined result. -/
def get_load_by_id (db : DB) (load_id : String) : Option Load :=
  match db.loads.filter (fun l => l.id = load_id) with
  | [l] => some l
  | _ => none

/-- database.py `get_driver_by_phone`: plain equality filter, first row if
any; all exceptions are caught and turned into None. -/
def get_driver_by_phone (db : DB) (phone : String) : Option Driver :=
  (db.drivers.filter (fun d => d.phone = phone)).head?

/-- database.py `update_driver_status`: update the driver row, then insert a
driver_status history row.  Either write can fail; a failure of the second
write leaves the first applied. -/
def update_driver_status (f : Faults) (db : DB) (driver_id : String)
    (is_loaded : Bool) (location : String) (reason : Option String) :
    Except DB DB :=
  if f.drivers_update_fails then Except.error db
  else
    let db1 : DB := { db with
      drivers := db.drivers.map (fun d =>
        if d.id = driver_id then
          { d with is_loaded := is_loaded, current_location := some location }
        else d) }
    if f.driver_status_insert_fails then Except.error db1
    else Except.ok { db1 with
      driver_status := db1.driver_status ++
        [{ driver_id := driver_id, is_loaded := is_loaded,
           location := location, notes := reason }] }

/-- database.py `create_call_log`: one insert into call_logs, no exception
handling of its own. -/
def create_call_log (f : Faults) (db : DB) (driver_id : String)
    (is_loaded : Bool) (reason : Option String) (location : String)
    (call_sid : Option String) : Except DB DB :=
  if f.call_logs_insert_fails then Except.error db
  else Except.ok { db with
    call_logs := db.call_logs ++
      [{ driver_id := driver_id, call_sid := call_sid, call_type := none,
         load_id := none, is_loaded := some is_loaded,
         reason_not_loaded := reason, assignment_status := none,
         driver_concerns := none, current_location := some location }] }

/-- database.py `assign_load_to_driver`: set the load to assigned with the
driver id, then set the driver row to is_loaded.  No exception handling, no
transaction: failure of the second write leaves the load already updated. -/
def assign_load_to_driver (f : Faults) (db : DB) (load_id driver_id : String) :
    Except DB DB :=
  if f.loads_update_fails then Except.error db
  else
    let db1 : DB := { db with
      loads := db.loads.map (fun l =>
        if l.id = load_id then
          { l with status := "assigned", assigned_driver_id := some driver_id }
        else l) }
    if f.drivers_update_fails then Except.error db1
    else Except.ok { db1 with
      drivers := db1.drivers.map (fun d =>
        if d.id = driver_id then { d with is_loaded := true } else d) }

/-- database.py: the mapping from the driver response to the stored load
status inside `update_load_assignment_status`. -/
def load_status_for (status : String) : String :=
  if status = "accepted" then "confirmed"
  else if status = "rejected" then "available"
  else "pending"

/-- database.py `update_load_assignment_status`: one update of the load row;
the whole body is inside try/except, so a store failure is swallowed and the
state is returned unchanged.  The `driver_id` argument is accepted but not
used by the update, exactly as in the source. -/
def update_load_assignment_status (f : Faults) (db : DB)
    (load_id driver_id status reason estimated_pickup concerns : String) : DB :=
  if f.loads_update_fails then db
  else { db with
    loads := db.loads.map (fun l =>
      if l.id = load_id then
        { l with status := load_status_for status,
                 driver_response := some status,
                 response_reason := some reason,
                 estimated_pickup := some estimated_pickup,
                 driver_concerns := some concerns }
      else l) }

/-- database.py `create_load_assignment_log`: one insert into call_logs,
wrapped in try/except, so a store failure is swallowed. -/
def create_load_assignment_log (f : Faults) (db : DB) (driver_id : String)
    (load_id : Option String) (status reason concerns : String)
    (call_sid : Option String) : DB :=
  if f.call_logs_insert_fails then db
  else { db with
    call_logs := db.call_logs ++
      [{ driver_id := driver_id, call_sid := call_sid,
         call_type := some "load_assignment", load_id := load_id,
         is_loaded := none, reason_not_loaded := some reason,
         assignment_status := some status, driver_concerns := some concerns,
         current_location := some "N/A" }] }

/-! ## Outbound-call builders (vapi_handler.py) -/

/-- Environment-sourced routing configuration read by vapi_handler.py. -/
structure VapiConfig where
  twilio_account_sid : Option String
  twilio_auth_token : Option String
  twilio_phone_number : Option String
  vapi_phone_number_id : Option String
deriving Repr, DecidableEq

/-- The Python exception classes distinguished by the handlers in main.py. -/
inductive PyError where
  | valueError (msg : String)
  | httpError (msg : String)
deriving Repr, DecidableEq

/-- Message text of a Python exception, as seen by a generic handler. -/
def pyErrMsg : PyError → String
  | PyError.valueError m => m
  | PyError.httpError m => m

/-- A request actually submitted to the voice provider: the dialled number
and the caller metadata the webhook reconciler later relies on. -/
structure OutboundCall where
  number : String
  metadata_driver_id : String
  metadata_load_id : Option String
deriving Repr, DecidableEq

/-- vapi_handler.py: `if TWILIO_ACCOUNT_SID and TWILIO_AUTH_TOKEN and
TWILIO_PHONE_NUMBER`, with Python truthiness on the env values. -/
def twilioConfigured (cfg : VapiConfig) : Bool :=
  (truthyStr cfg.twilio_account_sid).isSome &&
  (truthyStr cfg.twilio_auth_token).isSome &&
  (truthyStr cfg.twilio_phone_number).isSome

/-- vapi_handler.py: `elif VAPI_PHONE_NUMBER_ID`. -/
def vapiNumberConfigured (cfg : VapiConfig) : Bool :=
  (truthyStr cfg.vapi_phone_number_id).isSome

/-- vapi_handler.py `create_outbound_call` (status-check call).  The number is
normalised, then a ValueError is raised before any submission when neither
routing scheme is configured; otherwise the request is submitted (returned in
the submission list even when the provider then fails) and `transport_ok`
decides between the provider response and an HTTPError. -/
def create_outbound_call (cfg : VapiConfig) (transport_ok : Bool)
    (driver_phone driver_name driver_id : String) :
    Except PyError String × List OutboundCall :=
  let formatted := format_indian_phone_number driver_phone
  if twilioConfigured cfg || vapiNumberConfigured cfg then
    let sub : OutboundCall :=
      { number := formatted, metadata_driver_id := driver_id,
        metadata_load_id := none }
    if transport_ok then (Except.ok "call-id", [sub])
    else (Except.error (PyError.httpError "Call Error"), [sub])
  else (Except.error (PyError.valueError "No phone number configuration available"), [])

/-- vapi_handler.py `create_load_assignment_call`: same structure as
`create_outbound_call`, with the load id added to the call metadata. -/
def create_load_assignment_call (cfg : VapiConfig) (transport_ok : Bool)
    (driver_phone driver_name driver_id : String) (load : Load) :
    Except PyError String × List OutboundCall :=
  let formatted := format_indian_phone_number driver_phone
  if twilioConfigured cfg || vapiNumberConfigured cfg then
    let sub : OutboundCall :=
      { number := formatted, metadata_driver_id := driver_id,
        metadata_load_id := some load.id }
    if transport_ok then (Except.ok "call-id", [sub])
    else (Except.error (PyError.httpError "Call Error"), [sub])
  else (Except.error (PyError.valueError "No phone number configuration available"), [])

/-! ## HTTP handlers (main.py) -/

/-- An HTTP response of the JSON API: a success body or an HTTPException. -/
inductive ApiResponse where
  | ok (message : String)
  | err (code : Nat) (detail : String)
deriving Repr, DecidableEq

/-- main.py `make_call`.  `get_driver_by_id` either raises (caught by the
generic `except Exception` handler, which returns 500) or yields a row; a row
is always truthy, so the source line `if not driver: raise HTTPException(404)`
is unreachable and has no residue in the embedding.  A ValueError from the
call builder is mapped to 400, any other error to 500. -/
def make_call (cfg : VapiConfig) (transport_ok : Bool) (db : DB)
    (driver_id : String) : ApiResponse × List OutboundCall :=
  match get_driver_by_id db driver_id with
  | Except.error msg => (ApiResponse.err 500 msg, [])
  | Except.ok driver =>
    match create_outbound_call cfg transport_ok driver.phone driver.name driver.id with
    | (Except.ok _cid, subs) =>
      (ApiResponse.ok ("Call initiated to " ++ driver.name), subs)
    | (Except.error (PyError.valueError m), subs) => (ApiResponse.err 400 m, subs)
    | (Except.error (PyError.httpError m), subs) => (ApiResponse.err 500 m, subs)

/-- Body of the POST /api/assign-load request. -/
structure AssignLoadBody where
  driver_id : Option String
  load_id : Option String
deriving Repr, DecidableEq

/-- main.py `assign_load`.  Field checks use Python truthiness; the driver
lookup can raise (500 through the generic handler, as in `make_call`); the
load lookup returns None for a missing row (404); a load whose status is not
available is rejected with 400 before any write or call; then the load is
assigned and the assignment call placed.  `assign_load` has no ValueError
handler, so every exception after the HTTPExceptions maps to 500. -/
def assign_load (cfg : VapiConfig) (transport_ok : Bool) (f : Faults) (db : DB)
    (body : AssignLoadBody) : ApiResponse × DB × List OutboundCall :=
  match truthyStr body.driver_id, truthyStr body.load_id with
  | some driver_id, some load_id =>
    (match get_driver_by_id db driver_id with
    | Except.error msg => (ApiResponse.err 500 msg, db, [])
    | Except.ok driver =>
      match get_load_by_id db load_id with
      | none => (ApiResponse.err 404 "Load not found", db, [])
      | some load =>
        if load.status ≠ "available" then
          (ApiResponse.err 400 "Load is not available for assignment", db, [])
        else
          match assign_load_to_driver f db load_id driver_id with
          | Except.error db1 => (ApiResponse.err 500 "database error", db1, [])
          | Except.ok db1 =>
            match create_load_assignment_call cfg transport_ok driver.phone
                driver.name driver.id load with
            | (Except.ok _cid, subs) =>
              (ApiResponse.ok ("Load assigned to " ++ driver.name), db1, subs)
            | (Except.error e, subs) =>
              (ApiResponse.err 500 (pyErrMsg e), db1, subs))
  | _, _ =>
    (ApiResponse.err 400 "Both driver_id and load_id are required", db, [])

/-! ## Webhook reconciler (main.py `vapi_webhook`)

The incoming JSON payload is modelled by `WebhookBody`, projecting exactly the
fields the handler reads.  An unparseable request body (`await request.json()`
raising) is modelled by passing `Except.error` to the outer handler. -/

/-- The canonical function-call object: its name and the parameter keys the
handler reads (`parameters` for the function-call format, `arguments` for the
tool-calls format). -/
structure FuncCall where
  name : Option String
  param_status : Option String
  param_reason : Option String
  param_estimated_pickup : Option String
  param_concerns : Option String
  param_location : Option String
  param_is_loaded : Option Bool
  param_reason_not_loaded : Option String
deriving Repr, DecidableEq

/-- The empty dict `{}` used when no function call can be extracted. -/
def emptyFuncCall : FuncCall :=
  { name := none, param_status := none, param_reason := none,
    param_estimated_pickup := none, param_concerns := none,
    param_location := none, param_is_loaded := none,
    param_reason_not_loaded := none }

/-- The `call` object of the payload: its id and the metadata fields set at
call-initiation time.  A payload whose `call` is absent or an empty (falsy)
dict is modelled by `none`. -/
structure CallInfo where
  id : Option String
  metadata_driver_id : Option String
  metadata_load_id : Option String
deriving Repr, DecidableEq

/-- The `message` object of the payload. -/
structure Message where
  type : Option String
  functionCall : Option FuncCall
  toolCalls : List FuncCall
  customer_number : Option String
  phoneNumber_number : Option String
deriving Repr, DecidableEq

/-- The webhook payload fields read by the handler. -/
structure WebhookBody where
  message : Option Message
  type : Option String
  call : Option CallInfo
deriving Repr, DecidableEq

/-- `event_type = body.get("message", {}).get("type") or body.get("type")`. -/
def eventType (b : WebhookBody) : Option String :=
  pyOrStr (match b.message with | some m => m.type | none => none) b.type

/-- Normalisation of the two payload formats into one function-call object:
for tool-calls the first element of `toolCalls` (or `{}` when the list is
empty), otherwise `message.functionCall` (or `{}` when absent). -/
def extractFuncCall (b : WebhookBody) : FuncCall :=
  if eventType b = some "tool-calls" then
    match b.message with
    | some m =>
      match m.toolCalls with
      | fc :: _ => fc
      | [] => emptyFuncCall
    | none => emptyFuncCall
  else
    match b.message with
    | some m => m.functionCall.getD emptyFuncCall
    | none => emptyFuncCall

/-- `call_data.get("metadata", {}).get("driver_id") if call_data else None`. -/
def metaDriverId (b : WebhookBody) : Option String :=
  match b.call with | some c => c.metadata_driver_id | none => none

/-- `call_metadata.get('load_id')` over `call_data.get('metadata', {})`. -/
def metaLoadId (b : WebhookBody) : Option String :=
  match b.call with | some c => c.metadata_load_id | none => none

/-- `call_data.get('id')`. -/
def callId (b : WebhookBody) : Option String :=
  match b.call with | some c => c.id | none => none

/-- Phone-number extraction: `message.customer.number`, falling back to
`message.phoneNumber.number` under Python truthiness. -/
def extractPhone (b : WebhookBody) : Option String :=
  pyOrStr (match b.message with | some m => m.customer_number | none => none)
    (match b.message with | some m => m.phoneNumber_number | none => none)

/-- The phone-based fallback lookup of main.py lines 254 to 266: exact match
first; if none and the number starts with the default country code, retry
with the code stripped; if still none and the number does not start with `+`,
retry with the code added.  The second component records every phone string
looked up against the store, so that theorems can state that no, or which,
lookups happened. -/
def lookup_driver_by_phone_variants (db : DB) (phone : String) :
    Option Driver × List String :=
  let driver0 := get_driver_by_phone db phone
  let step1 : Option Driver × List String :=
    if driver0.isNone && strStartsWith phone "+91" then
      (get_driver_by_phone db (strDrop phone 3), [phone, strDrop phone 3])
    else (driver0, [phone])
  if step1.1.isNone && !(strStartsWith phone "+") then
    (get_driver_by_phone db ("+91" ++ phone), step1.2 ++ ["+91" ++ phone])
  else step1

/-- Driver-identity resolution of the reconciler: the metadata driver id when
truthy, otherwise the phone-based fallback over the extracted phone number.
The second component is the list of phone lookups performed. -/
def resolve_driver_id (db : DB) (b : WebhookBody) : Option String × List String :=
  match truthyStr (metaDriverId b) with
  | some d => (some d, [])
  | none =>
    match truthyStr (extractPhone b) with
    | some phone =>
      match lookup_driver_by_phone_variants db phone with
      | (some drv, tried) => (some drv.id, tried)
      | (none, tried) => (none, tried)
    | none => (none, [])

/-- The function names accepted by the reconciler. -/
def handledNames : List String :=
  ["update_driver_status", "updateLoadStatus", "updateLoadAssignment",
   "updateDriverStatus"]

/-- The body of the outer try of `vapi_webhook`.  The updateLoadAssignment
branch only calls swallowing store functions (and additionally wraps them in
try/except), so it cannot raise; the updateLoadStatus branch wraps each of
its two writes in try/except, keeping the partial state; the deprecated
old-format branch performs the same two writes with no try/except, so a
write failure there propagates to the outer handler, carrying the partial
state.  The final list records the phone lookups performed. -/
def vapi_webhook_core (f : Faults) (db : DB) (b : WebhookBody) :
    Except DB (DB × List String) :=
  let et := eventType b
  if et = some "function-call" ∨ et = some "tool-calls" then
    let fc := extractFuncCall b
    match fc.name with
    | some nm =>
      if nm ∈ handledNames then
        match resolve_driver_id db b with
        | (some driver_id, tried) =>
          if nm = "updateLoadAssignment" then
            let assignment_status := fc.param_status.getD "needs_discussion"
            let reason := fc.param_reason.getD ""
            let estimated_pickup := fc.param_estimated_pickup.getD ""
            let concerns := fc.param_concerns.getD ""
            let load_id := truthyStr (metaLoadId b)
            let db1 := match load_id with
              | some lid =>
                update_load_assignment_status f db lid driver_id
                  assignment_status reason estimated_pickup concerns
              | none => db
            let db2 := create_load_assignment_log f db1 driver_id load_id
              assignment_status reason concerns (callId b)
            Except.ok (db2, tried)
          else if nm = "updateLoadStatus" then
            let status := fc.param_status.getD "Available"
            let is_loaded := status == "Loaded"
            let location := fc.param_location.getD "Unknown"
            let reason := fc.param_reason.getD ""
            let db1 := match update_driver_status f db driver_id is_loaded
                location (some reason) with
              | Except.ok d => d
              | Except.error d => d
            let db2 := match create_call_log f db1 driver_id is_loaded
                (some reason) location (callId b) with
              | Except.ok d => d
              | Except.error d => d
            Except.ok (db2, tried)
          else
            match update_driver_status f db driver_id
                (fc.param_is_loaded.getD false) (fc.param_location.getD "Unknown")
                (some (fc.param_reason_not_loaded.getD "")) with
            | Except.error d => Except.error d
            | Except.ok db1 =>
              match create_call_log f db1 driver_id
                  (fc.param_is_loaded.getD false)
                  (some (fc.param_reason_not_loaded.getD ""))
                  (fc.param_location.getD "Unknown") (callId b) with
              | Except.error d => Except.error d
              | Except.ok db2 => Except.ok (db2, tried)
        | (none, tried) => Except.ok (db, tried)
      else Except.ok (db, [])
    | none => Except.ok (db, [])
  else Except.ok (db, [])

/-- The response returned to the voice provider: the HTTP status code and
the `status` field of the JSON body. -/
structure WebhookResponse where
  httpStatus : Nat
  body_status : String
deriving Repr, DecidableEq

/-- main.py `vapi_webhook`: parse the request body (an unparseable body is
the `Except.error` case), run the reconciler, and let the outer
`except Exception` turn any raise into a 200 response whose body reports
error.  The returned state is the table state after all writes that happened
before a raise, and the list is the phone lookups performed. -/
def vapi_webhook (f : Faults) (db : DB) (req : Except String WebhookBody) :
    WebhookResponse × DB × List String :=
  match req with
  | Except.error _ => ({ httpStatus := 200, body_status := "error" }, db, [])
  | Except.ok b =>
    match vapi_webhook_core f db b with
    | Except.ok (db1, tried) =>
      ({ httpStatus := 200, body_status := "success" }, db1, tried)
    | Except.error db1 =>
      ({ httpStatus := 200, body_status := "error" }, db1, [])

/-! ## Shared lemmas and concrete fixtures -/

theorem filter_map_ite {α : Type} (xs : List α) (q : α → Prop) [DecidablePred q]
    (g : α → α) (hg : ∀ a, q (g a) ↔ q a) :
    (xs.map (fun a => if q a then g a else a)).filter (fun a => q a) =
      (xs.filter (fun a => q a)).map g := by
  induction xs with
  | nil => rfl
  | cons x xs ih =>
    by_cases hx : q x
    · have hgx : q (g x) := (hg x).mpr hx
      simp [List.filter_cons, hx, hgx, ih]
    · simp [List.filter_cons, hx, ih]

/-- A concrete driver used by the witnesses. -/
def driverA : Driver :=
  { id := "d1", name := "Asha", phone := "+919876543210",
    current_location := none, is_loaded := false, truck_capacity := 40000 }

/-- A concrete available load used by the witnesses. -/
def loadAvailable : Load :=
  { id := "l1", load_number := "LD-100", pickup_location := "Mumbai",
    delivery_location := "Delhi", weight := 12000, status := "available",
    assigned_driver_id := none, driver_response := none,
    response_reason := none, estimated_pickup := none, driver_concerns := none }

/-- A concrete load that is not available. -/
def loadConfirmed : Load :=
  { loadAvailable with id := "l2", status := "confirmed" }

/-- Concrete store state used by the witnesses. -/
def db0 : DB :=
  { drivers := [driverA], loads := [loadAvailable, loadConfirmed],
    driver_status := [], call_logs := [] }

/-- A routing configuration with a provider-assigned number id. -/
def cfg0 : VapiConfig :=
  { twilio_account_sid := none, twilio_auth_token := none,
    twilio_phone_number := none, vapi_phone_number_id := some "vapi-num-1" }

/-! ## C2 — the webhook endpoint always acknowledges -/

/-- C2: for every incoming webhook request — including an unparseable body
and every pattern of store-write failures, in particular a write failure in
the deprecated old-format branch — the handler returns HTTP 200 (the success
acknowledgment that stops provider redelivery) and never an HTTP error
response; the JSON body carries status success or error as specified. -/
theorem webhook_always_acknowledges (f : Faults) (db : DB)
    (req : Except String WebhookBody) :
    ((vapi_webhook f db req).1).httpStatus = 200 ∧
    (((vapi_webhook f db req).1).body_status = "success" ∨
      ((vapi_webhook f db req).1).body_status = "error") := by
  cases req with
  | error e => exact ⟨rfl, Or.inr rfl⟩
  | ok b =>
    cases hc : vapi_webhook_core f db b with
    | ok p => simp [vapi_webhook, hc]
    | error d => simp [vapi_webhook, hc]

/-! ## C3 — unknown driver on POST /make-call -/

/-- C3: for every driver id matching no stored driver, `make_call` returns
500, not the 404 the spec requires: `get_driver_by_id` calls `.single()`,
which raises for zero rows, the exception reaches the generic handler of
`make_call`, and the 404 branch is unreachable.  This refutes the claimed
defined not-found result and supports classifying the code as buggy against
the spec. -/
theorem make_call_unknown_driver_500 (cfg : VapiConfig) (transport_ok : Bool)
    (db : DB) (driver_id : String)
    (h : db.drivers.filter (fun d => d.id = driver_id) = []) :
    make_call cfg transport_ok db driver_id =
      (ApiResponse.err 500 "JSON object requested, multiple (or no) rows returned",
       []) := by
  unfold make_call get_driver_by_id
  rw [h]

/-- Witness for C3 at a concrete unknown driver id over an empty store. -/
theorem make_call_unknown_driver_500_witness :
    make_call cfg0 true
        { drivers := [], loads := [], driver_status := [], call_logs := [] }
        "ghost" =
      (ApiResponse.err 500 "JSON object requested, multiple (or no) rows returned",
       []) :=
  make_call_unknown_driver_500 cfg0 true _ "ghost" rfl

/-! ## C7 — assigning an unavailable load is rejected without effects -/

/-- C7: for every POST /assign-load request whose named driver exists and
whose named load exists with a status other than available, the request is
rejected with 400, the store is left completely unchanged, and no outbound
call is submitted to the voice provider. -/
theorem assign_load_unavailable_rejected (cfg : VapiConfig) (transport_ok : Bool)
    (f : Faults) (db : DB) (body : AssignLoadBody) (did lid : String)
    (dr : Driver) (l : Load)
    (hdid : truthyStr body.driver_id = some did)
    (hlid : truthyStr body.load_id = some lid)
    (hdr : db.drivers.filter (fun d => d.id = did) = [dr])
    (hlf : db.loads.filter (fun x => x.id = lid) = [l])
    (hst : l.status ≠ "available") :
    assign_load cfg transport_ok f db body =
      (ApiResponse.err 400 "Load is not available for assignment", db, []) := by
  unfold assign_load get_driver_by_id get_load_by_id
  rw [hdid, hlid]
  simp [hdr, hlf, hst]

/-- Witness for C7 at the concrete confirmed load l2. -/
theorem assign_load_unavailable_rejected_witness :
    assign_load cfg0 true noFaults db0
        { driver_id := some "d1", load_id := some "l2" } =
      (ApiResponse.err 400 "Load is not available for assignment", db0, []) :=
  assign_load_unavailable_rejected cfg0 true noFaults db0
    { driver_id := some "d1", load_id := some "l2" } "d1" "l2" driverA
    loadConfirmed (by decide) (by decide) (by decide) (by decide) (by decide)

/-! ## C8 and C9 — successful assignment -/

/-- C8: every POST /assign-load request that succeeds (driver and load exist,
load is available, writes and call submission go through) leaves the load with
status assigned and assigned_driver_id equal to the requested driver id,
observable by re-fetching the load through `get_load_by_id`. -/
theorem assign_load_success_post (cfg : VapiConfig) (db : DB)
    (body : AssignLoadBody) (did lid : String) (dr : Driver) (l : Load)
    (hdid : truthyStr body.driver_id = some did)
    (hlid : truthyStr body.load_id = some lid)
    (hdr : db.drivers.filter (fun d => d.id = did) = [dr])
    (hlf : db.loads.filter (fun x => x.id = lid) = [l])
    (hst : l.status = "available")
    (hcfg : (twilioConfigured cfg || vapiNumberConfigured cfg) = true) :
    (∃ msg, (assign_load cfg true noFaults db body).1 = ApiResponse.ok msg) ∧
    get_load_by_id (assign_load cfg true noFaults db body).2.1 lid =
      some { l with status := "assigned", assigned_driver_id := some did } := by
  have hns : ¬ l.status ≠ "available" := fun hne => hne hst
  have hcall : create_load_assignment_call cfg true dr.phone dr.name dr.id l =
      (Except.ok "call-id",
       [{ number := format_indian_phone_number dr.phone,
          metadata_driver_id := dr.id, metadata_load_id := some l.id }]) := by
    simp [create_load_assignment_call, hcfg]
  have hresult : assign_load cfg true noFaults db body =
      (ApiResponse.ok ("Load assigned to " ++ dr.name),
       { db with
         loads := db.loads.map (fun x =>
           if x.id = lid then
             { x with status := "assigned", assigned_driver_id := some did }
           else x),
         drivers := db.drivers.map (fun d =>
           if d.id = did then { d with is_loaded := true } else d) },
       [{ number := format_indian_phone_number dr.phone,
          metadata_driver_id := dr.id, metadata_load_id := some l.id }]) := by
    unfold assign_load get_driver_by_id get_load_by_id
    rw [hdid, hlid]
    simp [hdr, hlf, hns, assign_load_to_driver, noFaults, hcall]
  refine ⟨⟨"Load assigned to " ++ dr.name, ?_⟩, ?_⟩
  · rw [hresult]
  · rw [hresult]
    unfold get_load_by_id
    have hfm := filter_map_ite db.loads (fun x => x.id = lid)
      (fun x => { x with status := "assigned", assigned_driver_id := some did })
      (fun a => Iff.rfl)
    show (match (db.loads.map (fun x =>
        if x.id = lid then
          { x with status := "assigned", assigned_driver_id := some did }
        else x)).filter (fun x => x.id = lid) with
      | [x] => some x
      | _ => none) =
      some { l with status := "assigned", assigned_driver_id := some did }
    rw [hfm, hlf]
    rfl

/-- Witness for C8 at the concrete available load l1. -/
theorem assign_load_success_post_witness :
    get_load_by_id
        (assign_load cfg0 true noFaults db0
          { driver_id := some "d1", load_id := some "l1" }).2.1 "l1" =
      some
        { loadAvailable with
          status := "assigned",
          assigned_driver_id := some "d1" } :=
  (assign_load_success_post cfg0 db0
    { driver_id := some "d1", load_id := some "l1" } "d1" "l1" driverA
    loadAvailable (by decide) (by decide) (by decide) (by decide) rfl
    (by decide)).2

/-- C9: a successful load assignment also sets the target driver row to
is_loaded at assignment time — already in the endpoint response, before any
accept or reject webhook has been processed — and modifies no other driver
field and no other driver row: the post-state driver table is exactly the old
table with only the is_loaded flag of the matching driver set. -/
theorem assign_load_sets_driver_loaded (cfg : VapiConfig) (db : DB)
    (body : AssignLoadBody) (did lid : String) (dr : Driver) (l : Load)
    (hdid : truthyStr body.driver_id = some did)
    (hlid : truthyStr body.load_id = some lid)
    (hdr : db.drivers.filter (fun d => d.id = did) = [dr])
    (hlf : db.loads.filter (fun x => x.id = lid) = [l])
    (hst : l.status = "available")
    (hcfg : (twilioConfigured cfg || vapiNumberConfigured cfg) = true) :
    (∃ msg, (assign_load cfg true noFaults db body).1 = ApiResponse.ok msg) ∧
    (assign_load cfg true noFaults db body).2.1.drivers =
      db.drivers.map (fun d =>
        if d.id = did then { d with is_loaded := true } else d) := by
  have hns : ¬ l.status ≠ "available" := fun hne => hne hst
  have hcall : create_load_assignment_call cfg true dr.phone dr.name dr.id l =
      (Except.ok "call-id",
       [{ number := format_indian_phone_number dr.phone,
          metadata_driver_id := dr.id, metadata_load_id := some l.id }]) := by
    simp [create_load_assignment_call, hcfg]
  have hresult : assign_load cfg true noFaults db body =
      (ApiResponse.ok ("Load assigned to " ++ dr.name),
       { db with
         loads := db.loads.map (fun x =>
           if x.id = lid then
             { x with status := "assigned", assigned_driver_id := some did }
           else x),
         drivers := db.drivers.map (fun d =>
           if d.id = did then { d with is_loaded := true } else d) },
       [{ number := format_indian_phone_number dr.phone,
          metadata_driver_id := dr.id, metadata_load_id := some l.id }]) := by
    unfold assign_load get_driver_by_id get_load_by_id
    rw [hdid, hlid]
    simp [hdr, hlf, hns, assign_load_to_driver, noFaults, hcall]
  exact ⟨⟨"Load assigned to " ++ dr.name, by rw [hresult]⟩, by rw [hresult]⟩

/-- Witness for C9: in the post-state of the concrete assignment the driver
row has is_loaded true and every other field unchanged. -/
theorem assign_load_sets_driver_loaded_witness :
    (assign_load cfg0 true noFaults db0
        { driver_id := some "d1", load_id := some "l1" }).2.1.drivers =
      [{ driverA with is_loaded := true }] :=
  ((assign_load_sets_driver_loaded cfg0 db0
    { driver_id := some "d1", load_id := some "l1" } "d1" "l1" driverA
    loadAvailable (by decide) (by decide) (by decide) (by decide) rfl
    (by decide)).2).trans (by decide)

/-! ## C1 — assigned_driver_id after a rejected assignment -/

/-- C1 (amended): `assign_load_to_driver` is the only operation that sets
`assigned_driver_id`, and it does so together with moving the status from
available to assigned; however, processing an updateLoadAssignment outcome
with status rejected resets the load status to available WITHOUT clearing
`assigned_driver_id`: the re-fetched load keeps its previous
`assigned_driver_id` value unchanged. -/
theorem rejected_assignment_keeps_driver_id (f : Faults) (db : DB)
    (lid did reason ep concerns : String) (l : Load)
    (hf : f.loads_update_fails = false)
    (hlf : db.loads.filter (fun x => x.id = lid) = [l]) :
    get_load_by_id
        (update_load_assignment_status f db lid did "rejected" reason ep concerns)
        lid =
      some
        { l with
          status := "available",
          driver_response := some "rejected",
          response_reason := some reason,
          estimated_pickup := some ep,
          driver_concerns := some concerns } := by
  have hls : load_status_for "rejected" = "available" := by decide
  unfold update_load_assignment_status
  rw [hf]
  simp only [Bool.false_eq_true, if_false]
  unfold get_load_by_id
  have hfm := filter_map_ite db.loads (fun x => x.id = lid)
    (fun x =>
      { x with
        status := load_status_for "rejected",
        driver_response := some "rejected",
        response_reason := some reason,
        estimated_pickup := some ep,
        driver_concerns := some concerns })
    (fun a => Iff.rfl)
  rw [hfm, hlf, hls]
  rfl

/-- A load already assigned to driver d1, for the C1 witness. -/
def loadAssigned : Load :=
  { loadAvailable with status := "assigned", assigned_driver_id := some "d1" }

/-- Store state in which l1 is assigned to d1. -/
def dbAssignedFixture : DB := { db0 with loads := [loadAssigned] }

/-- Witness for C1 (amended): after the rejected outcome the re-fetched load
is available again but still carries assigned_driver_id d1. -/
theorem rejected_assignment_keeps_driver_id_witness :
    get_load_by_id
        (update_load_assignment_status noFaults dbAssignedFixture "l1" "d1"
          "rejected" "truck breakdown" "" "")
        "l1" =
      some
        { loadAssigned with
          status := "available",
          driver_response := some "rejected",
          response_reason := some "truck breakdown",
          estimated_pickup := some "",
          driver_concerns := some "" } :=
  rejected_assignment_keeps_driver_id noFaults dbAssignedFixture "l1" "d1"
    "truck breakdown" "" "" loadAssigned rfl (by decide)

/-- The assign-load request used by the C1 counterexample. -/
def assignReq0 : AssignLoadBody := { driver_id := some "d1", load_id := some "l1" }

/-- Store state after the full POST /assign-load pipeline on db0. -/
def dbAfterAssign : DB := (assign_load cfg0 true noFaults db0 assignReq0).2.1

/-- The rejected updateLoadAssignment webhook payload, with the call metadata
set at call-initiation time. -/
def rejectWebhook0 : WebhookBody :=
  { message := some
      { type := some "function-call",
        functionCall := some
          { name := some "updateLoadAssignment",
            param_status := some "rejected",
            param_reason := some "truck breakdown",
            param_estimated_pickup := none, param_concerns := none,
            param_location := none, param_is_loaded := none,
            param_reason_not_loaded := none },
        toolCalls := [], customer_number := none, phoneNumber_number := none },
    type := none,
    call := some { id := some "call-77", metadata_driver_id := some "d1",
                   metadata_load_id := some "l1" } }

/-- Store state after the rejection webhook has been processed. -/
def dbAfterReject : DB :=
  (vapi_webhook noFaults dbAfterAssign (Except.ok rejectWebhook0)).2.1

/-- C1 counterexample: running the actual pipeline — assign load l1 to driver
d1, then process the updateLoadAssignment webhook with status rejected —
yields a load whose status is available while assigned_driver_id is still d1,
not null; so the claimed invariant and the claimed clearing on rejection are
false for the code. -/
theorem available_load_keeps_driver_counterexample :
    (get_load_by_id dbAfterReject "l1").map Load.status = some "available" ∧
    (get_load_by_id dbAfterReject "l1").map Load.assigned_driver_id =
      some (some "d1") :=
  ⟨by decide, by decide⟩

/-! ## C5 — status-update webhook writes exactly two audit rows -/

/-- C5: every updateLoadStatus webhook with a resolved driver and no write
failure appends exactly one DriverStatusEvent row and exactly one CallLog row,
both for the resolved driver id, the CallLog row carrying the call identifier
as call_sid (the driver_status schema has no call column, matching the spec
wording attributable to the same driver and call); no load row is touched and
no driver row is inserted (the driver table only has the matching row
updated, its length unchanged). -/
theorem status_update_webhook_rows (db : DB) (b : WebhookBody) (d : String)
    (het : eventType b = some "function-call" ∨ eventType b = some "tool-calls")
    (hname : (extractFuncCall b).name = some "updateLoadStatus")
    (hres : (resolve_driver_id db b).1 = some d) :
    (vapi_webhook noFaults db (Except.ok b)).1 =
      { httpStatus := 200, body_status := "success" } ∧
    (vapi_webhook noFaults db (Except.ok b)).2.1.driver_status =
      db.driver_status ++
        [{ driver_id := d,
           is_loaded := (extractFuncCall b).param_status.getD "Available" == "Loaded",
           location := (extractFuncCall b).param_location.getD "Unknown",
           notes := some ((extractFuncCall b).param_reason.getD "") }] ∧
    (vapi_webhook noFaults db (Except.ok b)).2.1.call_logs =
      db.call_logs ++
        [{ driver_id := d, call_sid := callId b, call_type := none,
           load_id := none,
           is_loaded := some ((extractFuncCall b).param_status.getD "Available" == "Loaded"),
           reason_not_loaded := some ((extractFuncCall b).param_reason.getD ""),
           assignment_status := none, driver_concerns := none,
           current_location := some ((extractFuncCall b).param_location.getD "Unknown") }] ∧
    (vapi_webhook noFaults db (Except.ok b)).2.1.loads = db.loads ∧
    (vapi_webhook noFaults db (Except.ok b)).2.1.drivers.length =
      db.drivers.length := by
  rcases hrr : resolve_driver_id db b with ⟨r1, tried⟩
  rw [hrr] at hres
  subst hres
  have hmem : ("updateLoadStatus" : String) ∈ handledNames := by decide
  have hcore : vapi_webhook_core noFaults db b = Except.ok
      ({ db with
         drivers := db.drivers.map (fun x =>
           if x.id = d then
             { x with
               is_loaded := (extractFuncCall b).param_status.getD "Available" == "Loaded",
               current_location := some ((extractFuncCall b).param_location.getD "Unknown") }
           else x),
         driver_status := db.driver_status ++
           [{ driver_id := d,
              is_loaded := (extractFuncCall b).param_status.getD "Available" == "Loaded",
              location := (extractFuncCall b).param_location.getD "Unknown",
              notes := some ((extractFuncCall b).param_reason.getD "") }],
         call_logs := db.call_logs ++
           [{ driver_id := d, call_sid := callId b, call_type := none,
              load_id := none,
              is_loaded := some ((extractFuncCall b).param_status.getD "Available" == "Loaded"),
              reason_not_loaded := some ((extractFuncCall b).param_reason.getD ""),
              assignment_status := none, driver_concerns := none,
              current_location := some ((extractFuncCall b).param_location.getD "Unknown") }] },
       tried) := by
    simp [vapi_webhook_core, if_pos het, hname, hmem, hrr,
      update_driver_status, create_call_log, noFaults]
  refine ⟨?_, ?_, ?_, ?_, ?_⟩ <;>
    simp [vapi_webhook, hcore]

/-- The concrete updateLoadStatus webhook payload used as C5 witness input. -/
def statusWebhook0 : WebhookBody :=
  { message := some
      { type := some "function-call",
        functionCall := some
          { name := some "updateLoadStatus",
            param_status := some "Loaded",
            param_reason := some "",
            param_estimated_pickup := none, param_concerns := none,
            param_location := some "Dallas, TX", param_is_loaded := none,
            param_reason_not_loaded := none },
        toolCalls := [], customer_number := none, phoneNumber_number := none },
    type := none,
    call := some { id := some "call-55", metadata_driver_id := some "d1",
                   metadata_load_id := none } }

/-- Witness for C5 at the concrete payload statusWebhook0 over db0. -/
theorem status_update_webhook_rows_witness :
    (vapi_webhook noFaults db0 (Except.ok statusWebhook0)).1 =
      { httpStatus := 200, body_status := "success" } :=
  (status_update_webhook_rows db0 statusWebhook0 "d1" (Or.inl (by decide))
    (by decide) (by decide)).1

/-! ## C10 — assignment outcome without a load id -/

/-- C10: every updateLoadAssignment webhook with a resolved driver whose call
metadata carries no (truthy) load id skips the load write entirely — the
post-state differs from the pre-state only by a single CallLog row with a
null load_id for the resolved driver — and the handler still returns
success: the audit write is not conditional on the load write. -/
theorem assignment_log_without_load_id (db : DB) (b : WebhookBody) (d : String)
    (het : eventType b = some "function-call" ∨ eventType b = some "tool-calls")
    (hname : (extractFuncCall b).name = some "updateLoadAssignment")
    (hres : (resolve_driver_id db b).1 = some d)
    (hload : truthyStr (metaLoadId b) = none) :
    (vapi_webhook noFaults db (Except.ok b)).1 =
      { httpStatus := 200, body_status := "success" } ∧
    (vapi_webhook noFaults db (Except.ok b)).2.1 =
      { db with
        call_logs := db.call_logs ++
          [{ driver_id := d, call_sid := callId b,
             call_type := some "load_assignment", load_id := none,
             is_loaded := none,
             reason_not_loaded := some ((extractFuncCall b).param_reason.getD ""),
             assignment_status := some ((extractFuncCall b).param_status.getD "needs_discussion"),
             driver_concerns := some ((extractFuncCall b).param_concerns.getD ""),
             current_location := some "N/A" }] } := by
  rcases hrr : resolve_driver_id db b with ⟨r1, tried⟩
  rw [hrr] at hres
  subst hres
  have hmem : ("updateLoadAssignment" : String) ∈ handledNames := by decide
  have hcore : vapi_webhook_core noFaults db b = Except.ok
      ({ db with
         call_logs := db.call_logs ++
           [{ driver_id := d, call_sid := callId b,
              call_type := some "load_assignment", load_id := none,
              is_loaded := none,
              reason_not_loaded := some ((extractFuncCall b).param_reason.getD ""),
              assignment_status := some ((extractFuncCall b).param_status.getD "needs_discussion"),
              driver_concerns := some ((extractFuncCall b).param_concerns.getD ""),
              current_location := some "N/A" }] },
       tried) := by
    simp [vapi_webhook_core, if_pos het, hname, hmem, hrr, hload,
      create_load_assignment_log, noFaults]
  exact ⟨by simp [vapi_webhook, hcore], by simp [vapi_webhook, hcore]⟩

/-- The concrete updateLoadAssignment payload without a load id. -/
def assignmentNoLoadWebhook0 : WebhookBody :=
  { message := some
      { type := some "function-call",
        functionCall := some
          { name := some "updateLoadAssignment",
            param_status := some "accepted",
            param_reason := some "on my way",
            param_estimated_pickup := some "2pm", param_concerns := some "",
            param_location := none, param_is_loaded := none,
            param_reason_not_loaded := none },
        toolCalls := [], customer_number := none, phoneNumber_number := none },
    type := none,
    call := some { id := some "call-88", metadata_driver_id := some "d1",
                   metadata_load_id := none } }

/-- Witness for C10: processing the concrete no-load-id payload over db0
leaves every table except call_logs unchanged and appends the one log row. -/
theorem assignment_log_without_load_id_witness :
    (vapi_webhook noFaults db0 (Except.ok assignmentNoLoadWebhook0)).2.1 =
      { db0 with
        call_logs :=
          [{ driver_id := "d1", call_sid := some "call-88",
             call_type := some "load_assignment", load_id := none,
             is_loaded := none, reason_not_loaded := some "on my way",
             assignment_status := some "accepted", driver_concerns := some "",
             current_location := some "N/A" }] } :=
  (assignment_log_without_load_id db0 assignmentNoLoadWebhook0 "d1"
    (Or.inl (by decide)) (by decide) (by decide) (by decide)).2

/-! ## C6 — webhook driver resolution -/

/-- Variant (a) of the fallback lookup: exact phone match. -/
def variant1 (db : DB) (p : String) : Option Driver :=
  get_driver_by_phone db p

/-- Variant (b): match after stripping the default country code; only
applicable when the number starts with +91, as in the source guard. -/
def variant2 (db : DB) (p : String) : Option Driver :=
  if strStartsWith p "+91" then get_driver_by_phone db (strDrop p 3) else none

/-- Variant (c): match after adding the default country code; only applicable
when the number does not start with +, as in the source guard. -/
def variant3 (db : DB) (p : String) : Option Driver :=
  if !(strStartsWith p "+") then get_driver_by_phone db ("+91" ++ p) else none

/-- The phone matches the stored driver dr under exactly one of the three
normalisation variants. -/
def matchesExactlyOne (db : DB) (p : String) (dr : Driver) : Prop :=
  (variant1 db p = some dr ∧ variant2 db p = none ∧ variant3 db p = none) ∨
  (variant1 db p = none ∧ variant2 db p = some dr ∧ variant3 db p = none) ∨
  (variant1 db p = none ∧ variant2 db p = none ∧ variant3 db p = some dr)

/-- C6: when the call metadata carries a truthy driver_id the reconciler uses
it and performs no phone lookup at all (the recorded lookup list is empty);
and when the metadata driver_id is absent but a phone number is extracted
that matches a stored driver under exactly one of the three normalisation
variants — tried in the fixed order exact, stripped, added — resolution
succeeds and yields that driver id. -/
theorem webhook_driver_resolution (db : DB) (b : WebhookBody) :
    (∀ d, truthyStr (metaDriverId b) = some d →
      resolve_driver_id db b = (some d, [])) ∧
    (∀ p dr, truthyStr (metaDriverId b) = none →
      truthyStr (extractPhone b) = some p →
      matchesExactlyOne db p dr →
      (resolve_driver_id db b).1 = some dr.id) := by
  constructor
  · intro d hd
    simp [resolve_driver_id, hd]
  · intro p dr hmeta hphone hm
    have hlook : (lookup_driver_by_phone_variants db p).1 = some dr := by
      rcases hm with ⟨h1, h2, h3⟩ | ⟨h1, h2, h3⟩ | ⟨h1, h2, h3⟩
      · rw [variant1] at h1
        simp [lookup_driver_by_phone_variants, h1]
      · rw [variant1] at h1
        by_cases hs : strStartsWith p "+91" = true
        · rw [variant2, if_pos hs] at h2
          simp [lookup_driver_by_phone_variants, h1, hs, h2]
        · rw [variant2, if_neg hs] at h2
          exact absurd h2 (by simp)
      · rw [variant1] at h1
        have hs : strStartsWith p "+" = false := by
          cases hsp : strStartsWith p "+" with
          | false => rfl
          | true =>
            rw [variant3, hsp] at h3
            simp at h3
        have hget : get_driver_by_phone db ("+91" ++ p) = some dr := by
          rw [variant3, hs] at h3
          simpa using h3
        by_cases hs91 : strStartsWith p "+91" = true
        · rw [variant2, if_pos hs91] at h2
          simp [lookup_driver_by_phone_variants, h1, hs91, h2, hs, hget]
        · simp [lookup_driver_by_phone_variants, h1, hs91, hs, hget]
    rcases hlk : lookup_driver_by_phone_variants db p with ⟨o, tr⟩
    rw [hlk] at hlook
    simp only at hlook
    subst hlook
    simp [resolve_driver_id, hmeta, hphone, hlk]

/-- Payload carrying only a phone number, no call metadata. -/
def phoneOnlyWebhook0 : WebhookBody :=
  { message := some
      { type := some "function-call",
        functionCall := some
          { name := some "updateLoadStatus",
            param_status := some "Loaded", param_reason := some "",
            param_estimated_pickup := none, param_concerns := none,
            param_location := some "Pune", param_is_loaded := none,
            param_reason_not_loaded := none },
        toolCalls := [], customer_number := some "9876543210",
        phoneNumber_number := none },
    type := none,
    call := none }

/-- Witness for C6: the phone 9876543210 matches driverA (stored as
+919876543210) only under the added-country-code variant, and resolution
returns d1. -/
theorem webhook_driver_resolution_witness :
    (resolve_driver_id db0 phoneOnlyWebhook0).1 = some "d1" :=
  (webhook_driver_resolution db0 phoneOnlyWebhook0).2 "9876543210" driverA
    (by decide) (by decide)
    (Or.inr (Or.inr ⟨by decide, by decide, by decide⟩))

end Hemut
